import Mathlib

/-!
Verification of the liteforge ORM core (Go).

This file gives a shallow embedding of the reflection-based metadata
extractor (internal/orm/config.go), the two dialect adapters
(SQLiteAdapter / PostgresAdapter), the Insert path (orm.Insert and the
synthetic postgresResult), the Repository operations Save / FindByID /
Update (pkg/model/datastore.go, ORMRepository) and the application data
store (ORMDataStore.GetUserByID), and proves theorems about them.

The external database/sql layer (connections, prepared statements, row
scanning) is modelled by an abstract Engine record: the embedding covers
exactly the SQL strings, argument lists and branching that the Go code
computes before handing off to database/sql.
-/

set_option maxHeartbeats 1000000

namespace Liteforge

/-- A Go runtime value as seen by the reflection code. Only the kinds the
repository inspects are distinguished; `other` stands for a value of any
further reflect.Kind (its contents are not inspected by the modelled code). -/
inductive GoValue where
  | int (n : Int)
  | int64 (n : Int)
  | int32 (n : Int)
  | int16 (n : Int)
  | int8 (n : Int)
  | str (s : String)
  | bool (b : Bool)
  | other (kind : String)
  deriving DecidableEq

/-- One struct field together with its tags: `name` is the exported Go field
name, `typeName` is `field.Type.String()`, `dbTag` is the value of the
db struct tag (empty when absent), `pkTag` the value of the pk struct tag. -/
structure GoField where
  name : String
  typeName : String
  value : GoValue
  dbTag : String
  pkTag : String
  deriving DecidableEq

/-- A Go struct value: its type name and its fields in declaration order. -/
structure GoStruct where
  typeName : String
  fields : List GoField
  deriving DecidableEq

/-- A value of interface type `any` passed as a model argument. -/
inductive GoModel where
  | nilInterface
  | prim (typeName : String)
  | structVal (s : GoStruct)
  | ptrStruct (isNil : Bool) (s : GoStruct)
  | ptrPrim (isNil : Bool) (typeName : String)
  deriving DecidableEq

/-- A Go error value: `errNoRows` is `sql.ErrNoRows`, `mk` is
`errors.New` / `fmt.Errorf` without wrapping, `wrap` is
`fmt.Errorf` with a trailing wrapped error. -/
inductive GoError where
  | errNoRows
  | mk (msg : String)
  | wrap (pre : String) (inner : GoError)
  deriving DecidableEq

/-- The test `errors.Is(err, sql.ErrNoRows)`: unwraps the chain. -/
def errorsIsNoRows : GoError → Bool
  | .errNoRows => true
  | .mk _ => false
  | .wrap _ e => errorsIsNoRows e

/-- The message text of an error (`err.Error()`); the wrapping uses of
fmt.Errorf in this repository all place the wrapped error last. -/
def errMessage : GoError → String
  | .errNoRows => "sql: no rows in result set"
  | .mk m => m
  | .wrap p e => p ++ errMessage e

/-- ASCII lowercasing, as Go strings.ToLower on the ASCII identifiers and
type names this repository reflects over. -/
def goToLower (s : String) : String := ⟨s.data.map Char.toLower⟩

/-- ASCII uppercasing, as Go strings.ToUpper on the ASCII constraint tags. -/
def goToUpper (s : String) : String := ⟨s.data.map Char.toUpper⟩

/-- List-level prefix test used by the substring test. -/
def listIsPrefix : List Char → List Char → Bool
  | [], _ => true
  | _ :: _, [] => false
  | p :: ps, c :: cs => p == c && listIsPrefix ps cs

/-- List-level substring occurrence test. -/
def listHasSub (pat : List Char) : List Char → Bool
  | [] => listIsPrefix pat []
  | c :: cs => listIsPrefix pat (c :: cs) || listHasSub pat cs

/-- Substring test, as Go strings.Contains. -/
def containsSub (s pat : String) : Bool := listHasSub pat.data s.data

/-- The dialect adapter selected for a connection: SQLiteAdapter or
PostgresAdapter (src/unnamed/part_000). -/
inductive Adapter where
  | sqlite
  | postgres
  deriving DecidableEq

/-- GetPlaceholder: SQLiteAdapter returns the fixed marker; PostgresAdapter
returns fmt.Sprintf of a dollar sign and the index (part_000 lines 124-126
and 237-239). -/
def GetPlaceholder : Adapter → Nat → String
  | .sqlite, _ => "?"
  | .postgres, i => "$" ++ toString i

/-- GetTableName (internal/orm/config.go lines 48-57): dereferences a
pointer type and returns the lowercased type name. It performs no
validation; `none` models the runtime panic on a nil interface input
(reflect.TypeOf(nil) is nil, so t.Kind() dereferences a nil interface). -/
def GetTableName : GoModel → Option String
  | .nilInterface => none
  | .prim ty => some (goToLower ty)
  | .structVal s => some (goToLower s.typeName)
  | .ptrStruct _ s => some (goToLower s.typeName)
  | .ptrPrim _ ty => some (goToLower ty)

/-- GetFieldInfo (config.go lines 61-86) on a struct value: lowercased field
names in declaration order, paired with the current field contents. -/
def GetFieldInfo (s : GoStruct) : List String × List GoValue :=
  (s.fields.map (fun f => goToLower f.name), s.fields.map (fun f => f.value))

/-- GetPrimaryKeyColumn (config.go lines 89-106): first field whose pk tag
is the string true, lowercased; error when none is found. -/
def GetPrimaryKeyColumn (s : GoStruct) : Except GoError String :=
  match s.fields.find? (fun f => f.pkTag == "true") with
  | some f => .ok (goToLower f.name)
  | none => .error (.mk "model has no primary key field (tag: `pk:\x22true\x22`)")

/-- Modelled from the spec: GetPrimaryKeyValue is called by ORMRepository
(pkg/model/datastore.go lines 132, 236, 288) but its definition is not
present under src/. Spec section 4.1: "PrimaryKeyValue(model) -> any: scans
fields for the primary-key annotation; fails with NoPrimaryKeyError if none
found." The primary-key annotation in this repository is the pk tag with
value true, as in GetPrimaryKeyColumn. -/
def GetPrimaryKeyValue (s : GoStruct) : Except GoError GoValue :=
  match s.fields.find? (fun f => f.pkTag == "true") with
  | some f => .ok f.value
  | none => .error (.mk "model has no primary key field")

/-- The type switch of SQLiteAdapter.CreateTableSQL (part_000 lines 97-108)
on field.Type.String(). -/
def sqliteType (ty : String) : String :=
  match ty with
  | "int" | "int64" | "int32" | "int16" | "int8" => "INTEGER"
  | "string" => "TEXT"
  | "float64" | "float32" => "REAL"
  | "bool" => "BOOLEAN"
  | _ => "TEXT"

/-- The type switch of PostgresAdapter.CreateTableSQL (part_000
lines 206-217). -/
def postgresType (ty : String) : String :=
  match ty with
  | "int" | "int64" | "int32" | "int16" | "int8" => "INTEGER"
  | "string" => "TEXT"
  | "float64" | "float32" => "DOUBLE PRECISION"
  | "bool" => "BOOLEAN"
  | _ => "TEXT"

/-- One column definition of SQLiteAdapter.CreateTableSQL (part_000
lines 84-117): constraint from the db tag uppercased when present, type
from the switch, PRIMARY KEY appended when the pk tag is true, joined by
fmt.Sprintf with single spaces. -/
def sqliteColumnDefinition (f : GoField) : String :=
  let columnConstraint := if f.dbTag = "" then "" else goToUpper f.dbTag
  let base := sqliteType f.typeName
  let sqlType := if f.pkTag = "true" then base ++ " PRIMARY KEY" else base
  goToLower f.name ++ " " ++ sqlType ++ " " ++ columnConstraint

/-- SQLiteAdapter.CreateTableSQL (part_000 lines 61-121) on a struct model
(the nil / non-struct validation preamble cannot fire on a struct value). -/
def SQLiteCreateTableSQL (s : GoStruct) : String :=
  "CREATE TABLE IF NOT EXISTS " ++ goToLower s.typeName ++ " (" ++
    String.intercalate ", " (s.fields.map sqliteColumnDefinition) ++ ")"

/-- One column definition of PostgresAdapter.CreateTableSQL (part_000
lines 193-229): as for SQLite, except that a primary-key column whose SQL
type contains INTEGER becomes SERIAL PRIMARY KEY. -/
def postgresColumnDefinition (f : GoField) : String :=
  let columnConstraint := if f.dbTag = "" then "" else goToUpper f.dbTag
  let base := postgresType f.typeName
  let sqlType :=
    if f.pkTag = "true" then
      if containsSub base "INTEGER" then "SERIAL PRIMARY KEY" else base ++ " PRIMARY KEY"
    else base
  goToLower f.name ++ " " ++ sqlType ++ " " ++ columnConstraint

/-- PostgresAdapter.CreateTableSQL (part_000 lines 170-234) on a struct
model. -/
def PostgresCreateTableSQL (s : GoStruct) : String :=
  "CREATE TABLE IF NOT EXISTS " ++ goToLower s.typeName ++ " (" ++
    String.intercalate ", " (s.fields.map postgresColumnDefinition) ++ ")"

/-- Dispatch of DBAdapter.CreateTableSQL over the two adapters. -/
def CreateTableSQL (a : Adapter) (s : GoStruct) : String :=
  match a with
  | .sqlite => SQLiteCreateTableSQL s
  | .postgres => PostgresCreateTableSQL s

deriving instance DecidableEq for Except

/-- A statement result (sql.Result): both accessors are fallible lookups. -/
structure SqlResult where
  lastInsertId : Except GoError Int
  rowsAffected : Except GoError Int
  deriving DecidableEq

/-- Outcome of a single-row query (database/sql QueryRow followed by Scan):
preparation or execution failure, zero rows (Scan reports sql.ErrNoRows),
or one row of column values in SELECT order. -/
inductive RowOutcome where
  | fail (e : GoError)
  | noRows
  | row (vals : List GoValue)
  deriving DecidableEq

/-- The external database/sql layer under an open connection: `exec` models
prepare-then-Exec of a statement with arguments, `queryRow` models
prepare-then-QueryRow, and `queryRowScanInt` models db.QueryRow followed by
Scan into a single int64 destination (the Postgres RETURNING path). -/
structure Engine where
  exec : String → List GoValue → Except GoError SqlResult
  queryRow : String → List GoValue → RowOutcome
  queryRowScanInt : String → List GoValue → Except GoError Int

/-- orm.Datastore: the open connection (Engine) and its selected adapter.
The claims under verification all presuppose a non-nil datastore, so the
nil-datastore early returns of the Go code are not reachable here. -/
structure Datastore where
  adapter : Adapter
  engine : Engine

/-- orm.Exec (part_005 lines 35-52): prepare and execute, wrapping an engine
failure. Preparation failure is folded into the engine failure. -/
def Exec (ds : Datastore) (query : String) (args : List GoValue) : Except GoError SqlResult :=
  match ds.engine.exec query args with
  | .error e => .error (.wrap "failed to execute exec statement: " e)
  | .ok r => .ok r

/-- The column/value filtering loop of orm.Insert (part_005 lines 87-93):
walk the zipped column and value lists, skipping the primary-key column. -/
def splitPk : List (String × GoValue) → String → List String × List GoValue
  | [], _ => ([], [])
  | (c, v) :: rest, pkCol =>
    if c = pkCol then splitPk rest pkCol
    else
      let (cs, vs) := splitPk rest pkCol
      (c :: cs, v :: vs)

/-- The execution tail of orm.Insert (part_005 lines 107-127): on Postgres
with a primary-key column, append RETURNING, scan the returned id and build
the synthetic postgresResult with rowsAffected 1; on Postgres without a
primary key, and on SQLite, run a standard Exec. -/
def insertExec (ds : Datastore) (query : String) (values : List GoValue) (pkCol : String) :
    Except GoError SqlResult :=
  match ds.adapter with
  | .postgres =>
    if pkCol = "" then Exec ds query values
    else
      match ds.engine.queryRowScanInt (query ++ " RETURNING " ++ pkCol) values with
      | .error e => .error (.wrap "failed to execute insert query and scan ID: " e)
      | .ok lastInsertID => .ok { lastInsertId := .ok lastInsertID, rowsAffected := .ok 1 }
  | .sqlite => Exec ds query values

/-- orm.Insert (part_005 lines 70-128) on a struct model: column list and
values with the primary-key column excluded (pkCol is the empty string when
GetPrimaryKeyColumn fails), placeholders from the adapter at 1-based
indices, then the dialect-dependent execution tail. -/
def Insert (ds : Datastore) (s : GoStruct) : Except GoError SqlResult :=
  let tableName := goToLower s.typeName
  let allColumns := (GetFieldInfo s).1
  let allValues := (GetFieldInfo s).2
  let pkCol := match GetPrimaryKeyColumn s with | .ok c => c | .error _ => ""
  let cv := splitPk (allColumns.zip allValues) pkCol
  let placeholders := (List.range cv.1.length).map (fun i => GetPlaceholder ds.adapter (i + 1))
  let query := "INSERT INTO " ++ tableName ++ " (" ++ String.intercalate ", " cv.1 ++
    ") VALUES (" ++ String.intercalate ", " placeholders ++ ")"
  insertExec ds query cv.2 pkCol

/-- The SET-clause loop of ORMRepository.Update (datastore.go lines 246-253):
skip the primary-key column, otherwise emit a clause with the next
placeholder index; the final index is returned for the WHERE clause. -/
def buildSet (a : Adapter) (pkCol : String) :
    List (String × GoValue) → Nat → List String × List GoValue × Nat
  | [], idx => ([], [], idx)
  | (c, v) :: rest, idx =>
    if c = pkCol then buildSet a pkCol rest idx
    else
      let r := buildSet a pkCol rest (idx + 1)
      ((c ++ " = " ++ GetPlaceholder a idx) :: r.1, v :: r.2.1, r.2.2)

/-- ORMRepository.Update (datastore.go lines 222-272) on a struct model. -/
def Update (ds : Datastore) (s : GoStruct) : Except GoError SqlResult :=
  let tableName := goToLower s.typeName
  let columns := (GetFieldInfo s).1
  let values := (GetFieldInfo s).2
  match GetPrimaryKeyColumn s with
  | .error e => .error (.wrap "model must have a primary key field with \x27pk\x27 tag: " e)
  | .ok pkCol =>
    match GetPrimaryKeyValue s with
    | .error e => .error (.wrap "failed to get primary key value: " e)
    | .ok pkValue =>
      let r := buildSet ds.adapter pkCol (columns.zip values) 1
      if r.1.isEmpty then .error (.mk "no fields to update")
      else
        let updateValues := r.2.1 ++ [pkValue]
        let query := "UPDATE " ++ tableName ++ " SET " ++ String.intercalate ", " r.1 ++
          " WHERE " ++ pkCol ++ " = " ++ GetPlaceholder ds.adapter r.2.2
        Exec ds query updateValues

/-- ORMRepository.Save (datastore.go lines 127-148) on a struct model: when
the primary-key lookup fails, Insert; when the primary-key value has
reflect.Kind Int or Int64 and is 0, Insert; otherwise Update. -/
def Save (ds : Datastore) (s : GoStruct) : Except GoError SqlResult :=
  match GetPrimaryKeyValue s with
  | .error _ => Insert ds s
  | .ok pkValue =>
    match pkValue with
    | .int n => if n = 0 then Insert ds s else Update ds s
    | .int64 n => if n = 0 then Insert ds s else Update ds s
    | _ => Update ds s

/-- Positional row scan onto the fields (datastore.go lines 193-216): Scan
writes the i-th row value into the address of the i-th field; a column-count
mismatch is a scan error. -/
def setFields : List GoField → List GoValue → Option (List GoField)
  | [], [] => some []
  | f :: fs, v :: vs => (setFields fs vs).map (fun rest => { f with value := v } :: rest)
  | _, _ => none

/-- ORMRepository.FindByID (datastore.go lines 151-219): validates that the
model is a non-nil pointer to a struct, builds the SELECT over all columns
with the primary key bound to placeholder 1, runs QueryRow and scans the
row positionally into the fields. The second component is the (possibly
updated) model reached through the pointer; on every error path the model
is returned unmodified, and sql.ErrNoRows is propagated unwrapped. -/
def FindByID (ds : Datastore) (m : GoModel) (id : Int) : Option GoError × GoModel :=
  match m with
  | .ptrStruct false s =>
    let tableName := goToLower s.typeName
    let columns := (GetFieldInfo s).1
    if columns.isEmpty then (some (.mk "model has no fields to query"), m)
    else
      match GetPrimaryKeyColumn s with
      | .error e => (some (.wrap "model must have a primary key field with \x27pk\x27 tag: " e), m)
      | .ok pkCol =>
        let query := "SELECT " ++ String.intercalate ", " columns ++ " FROM " ++ tableName ++
          " WHERE " ++ pkCol ++ " = " ++ GetPlaceholder ds.adapter 1
        match ds.engine.queryRow query [.int id] with
        | .fail e => (some (.wrap "failed to query row: " e), m)
        | .noRows => (some .errNoRows, m)
        | .row rowVals =>
          match setFields s.fields rowVals with
          | some newFields => (none, .ptrStruct false { s with fields := newFields })
          | none => (some (.wrap "failed to scan row into model: " (.mk "Scan destination count mismatch")), m)
  | _ => (some (.mk "model must be a non-nil pointer to a struct"), m)

/-- The User model of pkg/model (datastore.go lines 304-309). -/
structure GoUser where
  id : Int
  name : String
  age : Int
  deriving DecidableEq

/-- The zero-valued User allocated by GetUserByID (user := new User). -/
def zeroUser : GoUser := { id := 0, name := "", age := 0 }

/-- ORMDataStore.GetUserByID (pkg/model/datastore.go lines 28-41): runs the
underlying Repository.FindByID on a freshly zero-valued User; a failure
satisfying errors.Is with sql.ErrNoRows becomes (nil, nil), any other
failure is wrapped with the id, success returns the populated user. The
underlying repository is abstracted by the `find` argument (the Repo field
is an interface; the nil-repository early return is not reachable here). -/
def GetUserByID (find : GoUser → Int → Option GoError × GoUser) (id : Int) :
    Except GoError (Option GoUser) :=
  match find zeroUser id with
  | (some e, _) =>
    if errorsIsNoRows e then .ok none
    else .error (.wrap ("failed to find user by ID " ++ toString id ++ ": ") e)
  | (none, u) => .ok (some u)

/-! Spec-side definitions, written from the wording of the specification,
for comparison with the definitions embedded from the source. -/

/-- Spec wording: the integer family of Go types. -/
def integerFamily (ty : String) : Bool :=
  ty == "int" || ty == "int64" || ty == "int32" || ty == "int16" || ty == "int8"

/-- Spec wording (section 4.2): value type to SQL type name — integer
family to INTEGER, string to TEXT, floating to REAL for SQLite or DOUBLE
PRECISION for Postgres, boolean to BOOLEAN, anything else to TEXT. -/
def specSqlTypeName (a : Adapter) (ty : String) : String :=
  if integerFamily ty then "INTEGER"
  else if ty == "string" then "TEXT"
  else if ty == "float64" || ty == "float32" then
    match a with
    | .sqlite => "REAL"
    | .postgres => "DOUBLE PRECISION"
  else if ty == "bool" then "BOOLEAN"
  else "TEXT"

/-- Spec wording: the primary-key fragment appended to the primary-key
column type — SQLite appends PRIMARY KEY; Postgres uses SERIAL PRIMARY KEY
when the underlying type is integer-family, else appends PRIMARY KEY. -/
def specColumnType (a : Adapter) (f : GoField) : String :=
  let t := specSqlTypeName a f.typeName
  if f.pkTag = "true" then
    match a with
    | .sqlite => t ++ " PRIMARY KEY"
    | .postgres => if integerFamily f.typeName then "SERIAL PRIMARY KEY" else t ++ " PRIMARY KEY"
  else t

/-- Spec wording: CREATE TABLE IF NOT EXISTS with one column definition per
field in declaration order, each the lowercased field name, the column
type, and the constraint tag uppercased verbatim. -/
def specCreateTableSQL (a : Adapter) (s : GoStruct) : String :=
  "CREATE TABLE IF NOT EXISTS " ++ goToLower s.typeName ++ " (" ++
    String.intercalate ", "
      (s.fields.map (fun f => goToLower f.name ++ " " ++ specColumnType a f ++ " " ++ goToUpper f.dbTag))
    ++ ")"

/-- Spec wording (claim C2): the column list with the primary-key column
excluded, in declaration order. -/
def specInsertColumns (s : GoStruct) (pkCol : String) : List String :=
  (((GetFieldInfo s).1.zip (GetFieldInfo s).2).filter (fun cv => cv.1 ≠ pkCol)).map Prod.fst

/-- Spec wording (claim C2): the values paired with the remaining columns. -/
def specInsertValues (s : GoStruct) (pkCol : String) : List GoValue :=
  (((GetFieldInfo s).1.zip (GetFieldInfo s).2).filter (fun cv => cv.1 ≠ pkCol)).map Prod.snd

/-- Spec wording (claim C2): the INSERT statement over the remaining
columns, each paired with the adapter placeholder at 1-based positions. -/
def specInsertQuery (a : Adapter) (s : GoStruct) (pkCol : String) : String :=
  let cols := specInsertColumns s pkCol
  "INSERT INTO " ++ goToLower s.typeName ++ " (" ++ String.intercalate ", " cols ++
    ") VALUES (" ++ String.intercalate ", "
      ((List.range cols.length).map (fun i => GetPlaceholder a (i + 1))) ++ ")"

/-- Spec wording (claim C1): a Go value that is the zero value of its type.
For the `other` kinds the zero value is not representable here; no claim is
evaluated on them. -/
def specIsZeroValue : GoValue → Bool
  | .int n => n == 0
  | .int64 n => n == 0
  | .int32 n => n == 0
  | .int16 n => n == 0
  | .int8 n => n == 0
  | .str s => s == ""
  | .bool b => b == false
  | .other _ => false

/-! Concrete objects used by witnesses and counterexamples. -/

/-- An engine whose operations all succeed with fixed answers. -/
def trivialEngine : Engine :=
  { exec := fun _ _ => .ok { lastInsertId := .ok 1, rowsAffected := .ok 1 }
    queryRow := fun _ _ => .noRows
    queryRowScanInt := fun _ _ => .ok 1 }

/-- A SQLite datastore over the trivial engine. -/
def dsLite : Datastore := { adapter := .sqlite, engine := trivialEngine }

/-- A user-shaped model with a proper pk-tagged integer key (as the models
used in src/test): ID int with pk true, Name string, Age int. -/
def sUser : GoStruct :=
  { typeName := "User"
    fields :=
      [ { name := "ID", typeName := "int", value := .int 0, dbTag := "", pkTag := "true" }
      , { name := "Name", typeName := "string", value := .str "Alice", dbTag := "", pkTag := "" }
      , { name := "Age", typeName := "int", value := .int 30, dbTag := "", pkTag := "" } ] }

/-! Theorems for the claims. -/

/-- Claim C5: for every index i at least 1, the SQLite adapter placeholder
is the constant "?" and the Postgres adapter placeholder is "$" followed by
the decimal representation of i. -/
theorem c5_getPlaceholder (i : Nat) (h : 1 ≤ i) :
    GetPlaceholder Adapter.sqlite i = "?" ∧
    GetPlaceholder Adapter.postgres i = "$" ++ Nat.repr i :=
  ⟨rfl, rfl⟩

/-- Witness for C5 at index 10, where the Postgres placeholder is "$10". -/
theorem c5_getPlaceholder_witness :
    GetPlaceholder Adapter.sqlite 10 = "?" ∧
    GetPlaceholder Adapter.postgres 10 = "$" ++ Nat.repr 10 :=
  c5_getPlaceholder 10 (by decide)

/-- Counterexample for claim C6: GetTableName given the non-struct value
int 5 succeeds and returns the lowercased type name "int" instead of
failing with an InvalidModelError, and given a nil value it panics
(modelled as none) instead of returning an InvalidModelError. -/
theorem c6_counterexample :
    GetTableName (GoModel.prim "int") = some "int" ∧
    GetTableName GoModel.nilInterface = none :=
  ⟨rfl, rfl⟩

/-- Claim C6 amended: GetTableName performs no input validation. For a
struct value or a pointer to a struct it dereferences the pointer and
returns the lowercased type name; for a non-nil non-struct value it
likewise returns the lowercased type name with no error; a nil value
causes a runtime panic rather than an InvalidModelError. -/
theorem c6_getTableName_no_validation (s : GoStruct) (b : Bool) (ty : String) :
    GetTableName (GoModel.structVal s) = some (goToLower s.typeName) ∧
    GetTableName (GoModel.ptrStruct b s) = some (goToLower s.typeName) ∧
    GetTableName (GoModel.prim ty) = some (goToLower ty) ∧
    GetTableName (GoModel.ptrPrim b ty) = some (goToLower ty) ∧
    GetTableName GoModel.nilInterface = none :=
  ⟨rfl, rfl, rfl, rfl, rfl⟩

/-- Claim C7: for every argument that is not a non-nil pointer to a struct,
FindByID fails with an error whose message contains
"model must be a non-nil pointer to a struct". -/
theorem c7_findByID_invalid_model (ds : Datastore) (m : GoModel) (id : Int)
    (h : ∀ s, m ≠ GoModel.ptrStruct false s) :
    ∃ e, (FindByID ds m id).1 = some e ∧
      containsSub (errMessage e) "model must be a non-nil pointer to a struct" = true := by
  have hbad : FindByID ds m id = (some (.mk "model must be a non-nil pointer to a struct"), m) := by
    cases m with
    | ptrStruct isNil s =>
      cases isNil with
      | false => exact absurd rfl (h s)
      | true => rfl
    | nilInterface => rfl
    | prim ty => rfl
    | structVal s => rfl
    | ptrPrim isNil ty => rfl
  rw [hbad]
  exact ⟨.mk "model must be a non-nil pointer to a struct", rfl, by decide⟩

/-- Witness for C7: a plain non-pointer value. -/
theorem c7_findByID_invalid_model_witness :
    ∃ e, (FindByID dsLite (GoModel.prim "int") 1).1 = some e ∧
      containsSub (errMessage e) "model must be a non-nil pointer to a struct" = true :=
  c7_findByID_invalid_model dsLite (GoModel.prim "int") 1
    (fun s hc => GoModel.noConfusion hc)

/-- Claim C9: when the underlying Repository.FindByID reports the not-found
condition (an error satisfying errors.Is with sql.ErrNoRows), GetUserByID
returns a nil user with a nil error; any other FindByID failure yields a
non-nil wrapped error. -/
theorem c9_getUserByID_notfound (find : GoUser → Int → Option GoError × GoUser)
    (id : Int) (e : GoError) (u : GoUser) (h : find zeroUser id = (some e, u)) :
    (errorsIsNoRows e = true → GetUserByID find id = Except.ok none) ∧
    (errorsIsNoRows e = false →
      GetUserByID find id =
        Except.error (.wrap ("failed to find user by ID " ++ toString id ++ ": ") e)) := by
  constructor <;> intro he <;> simp [GetUserByID, h, he]

/-- Witness for C9: a repository whose FindByID always reports no rows. -/
theorem c9_getUserByID_notfound_witness :
    GetUserByID (fun _ _ => (some GoError.errNoRows, zeroUser)) 5 = Except.ok none :=
  (c9_getUserByID_notfound (fun _ _ => (some GoError.errNoRows, zeroUser)) 5
    GoError.errNoRows zeroUser rfl).1 rfl

/-! Helper lemmas shared by the claim theorems. -/

theorem goToUpper_empty : goToUpper "" = "" := rfl

theorem sqliteType_eq_spec (ty : String) :
    sqliteType ty = specSqlTypeName Adapter.sqlite ty := by
  unfold sqliteType specSqlTypeName integerFamily
  split <;> simp_all

theorem postgresType_eq_spec (ty : String) :
    postgresType ty = specSqlTypeName Adapter.postgres ty := by
  unfold postgresType specSqlTypeName integerFamily
  split <;> simp_all

/-- The SERIAL test of PostgresAdapter.CreateTableSQL (strings.Contains of
the computed SQL type with INTEGER) coincides with membership of the Go
type in the integer family. -/
theorem containsSub_postgresType (ty : String) :
    containsSub (postgresType ty) "INTEGER" = integerFamily ty := by
  have h1 : containsSub "INTEGER" "INTEGER" = true := by decide
  have h2 : containsSub "TEXT" "INTEGER" = false := by decide
  have h3 : containsSub "DOUBLE PRECISION" "INTEGER" = false := by decide
  have h4 : containsSub "BOOLEAN" "INTEGER" = false := by decide
  unfold postgresType integerFamily
  split <;> simp_all

theorem containsSub_specSqlTypeName (ty : String) :
    containsSub (specSqlTypeName Adapter.postgres ty) "INTEGER" = integerFamily ty := by
  rw [← postgresType_eq_spec, containsSub_postgresType]

theorem sqliteColumnDefinition_eq_spec :
    sqliteColumnDefinition =
      fun f => goToLower f.name ++ " " ++ specColumnType Adapter.sqlite f ++ " " ++ goToUpper f.dbTag := by
  funext f
  unfold sqliteColumnDefinition specColumnType
  by_cases hd : f.dbTag = "" <;> by_cases hp : f.pkTag = "true" <;>
    simp [hd, hp, sqliteType_eq_spec, goToUpper_empty]

theorem postgresColumnDefinition_eq_spec :
    postgresColumnDefinition =
      fun f => goToLower f.name ++ " " ++ specColumnType Adapter.postgres f ++ " " ++ goToUpper f.dbTag := by
  funext f
  unfold postgresColumnDefinition specColumnType
  by_cases hd : f.dbTag = "" <;> by_cases hp : f.pkTag = "true" <;>
    simp [hd, hp, postgresType_eq_spec, containsSub_postgresType, containsSub_specSqlTypeName,
      goToUpper_empty]

/-- Claim C4: for every struct model and either adapter, the generated
CREATE TABLE statement equals the statement described by the specification:
per-field SQL types (integer family INTEGER, string TEXT, floating REAL or
DOUBLE PRECISION, bool BOOLEAN, default TEXT), the dialect primary-key
fragment, the uppercased constraint tag, and columns in declaration order
inside CREATE TABLE IF NOT EXISTS. -/
theorem c4_createTableSQL (a : Adapter) (s : GoStruct) :
    CreateTableSQL a s = specCreateTableSQL a s := by
  cases a with
  | sqlite =>
    unfold CreateTableSQL SQLiteCreateTableSQL specCreateTableSQL
    rw [sqliteColumnDefinition_eq_spec]
  | postgres =>
    unfold CreateTableSQL PostgresCreateTableSQL specCreateTableSQL
    rw [postgresColumnDefinition_eq_spec]

/-- The insert filtering loop equals filtering the zipped lists on the
primary-key column and projecting. -/
theorem splitPk_eq (l : List (String × GoValue)) (pk : String) :
    splitPk l pk =
      ((l.filter (fun cv => cv.1 ≠ pk)).map Prod.fst,
       (l.filter (fun cv => cv.1 ≠ pk)).map Prod.snd) := by
  induction l with
  | nil => rfl
  | cons cv rest ih =>
    obtain ⟨c, v⟩ := cv
    by_cases h : c = pk <;> simp [splitPk, h, ih]

/-- Insert on a model with a primary-key column takes the spec form: the
query over the remaining columns with 1-based adapter placeholders, the
remaining values, and the dialect execution tail. -/
theorem insert_pk_form (ds : Datastore) (s : GoStruct) (pk : String)
    (h : GetPrimaryKeyColumn s = .ok pk) :
    Insert ds s = insertExec ds (specInsertQuery ds.adapter s pk) (specInsertValues s pk) pk := by
  unfold Insert specInsertQuery specInsertColumns specInsertValues
  rw [h]
  simp only [splitPk_eq]

/-- Insert on a model without a primary-key column takes the spec form with
the empty-string pk marker. -/
theorem insert_nopk_form (ds : Datastore) (s : GoStruct) (e : GoError)
    (h : GetPrimaryKeyColumn s = .error e) :
    Insert ds s = insertExec ds (specInsertQuery ds.adapter s "") (specInsertValues s "") "" := by
  unfold Insert specInsertQuery specInsertColumns specInsertValues
  rw [h]
  simp only [splitPk_eq]

/-- Claim C2: for every model with a primary-key column, Insert builds its
INSERT statement from the column list with the primary-key column excluded,
pairs each remaining column in declaration order with the adapter
placeholder at 1-based positions, and returns the adapter execution result
(native Exec, or the synthetic Postgres result, via insertExec). -/
theorem c2_insert_excludes_pk (ds : Datastore) (s : GoStruct) (pk : String)
    (h : GetPrimaryKeyColumn s = .ok pk) :
    Insert ds s = insertExec ds (specInsertQuery ds.adapter s pk) (specInsertValues s pk) pk :=
  insert_pk_form ds s pk h

/-- Witness for C2 on the sample User model under SQLite. -/
theorem c2_insert_excludes_pk_witness :
    Insert dsLite sUser =
      insertExec dsLite (specInsertQuery dsLite.adapter sUser "id") (specInsertValues sUser "id") "id" :=
  c2_insert_excludes_pk dsLite sUser "id" rfl

/-- A Postgres datastore whose RETURNING scan reports id 42. -/
def pgEngine : Engine :=
  { exec := fun _ _ => .ok { lastInsertId := .ok 0, rowsAffected := .ok 0 }
    queryRow := fun _ _ => .noRows
    queryRowScanInt := fun _ _ => .ok 42 }

/-- A Postgres datastore over pgEngine. -/
def dsPg : Datastore := { adapter := .postgres, engine := pgEngine }

/-- Claim C3: with the Postgres adapter, when the model has a primary-key
column the INSERT gets a RETURNING clause for that column, the returned
value is scanned, and the result is the synthetic postgresResult whose
LastInsertId is the scanned value and whose RowsAffected is the constant 1;
when the model has no primary-key column the plain INSERT is executed with
no RETURNING clause and no synthetic result. -/
theorem c3_insert_postgres_returning (ds : Datastore) (s : GoStruct)
    (hpg : ds.adapter = Adapter.postgres) :
    (∀ pk n, GetPrimaryKeyColumn s = .ok pk → pk ≠ "" →
      ds.engine.queryRowScanInt (specInsertQuery ds.adapter s pk ++ " RETURNING " ++ pk)
        (specInsertValues s pk) = .ok n →
      Insert ds s = .ok { lastInsertId := .ok n, rowsAffected := .ok 1 }) ∧
    (∀ e, GetPrimaryKeyColumn s = .error e →
      Insert ds s = Exec ds (specInsertQuery ds.adapter s "") (specInsertValues s "")) := by
  constructor
  · intro pk n hpk hne hscan
    rw [insert_pk_form ds s pk hpk]
    rw [hpg] at hscan ⊢
    unfold insertExec
    simp [hpg, hne, hscan]
  · intro e he
    rw [insert_nopk_form ds s e he]
    rw [hpg]
    unfold insertExec
    simp [hpg]

/-- Witness for C3 on the sample User model under Postgres: the synthetic
result carries the scanned id 42 and rows affected 1. -/
theorem c3_insert_postgres_returning_witness :
    Insert dsPg sUser = .ok { lastInsertId := .ok 42, rowsAffected := .ok 1 } :=
  (c3_insert_postgres_returning dsPg sUser rfl).1 "id" 42 rfl (by decide) rfl

/-- When the primary-key column lookup fails, the spec-modelled primary-key
value lookup fails as well: both scan for the same pk tag. -/
theorem pkValue_error_of_pkColumn_error (s : GoStruct) (e : GoError)
    (h : GetPrimaryKeyColumn s = .error e) :
    GetPrimaryKeyValue s = .error (.mk "model has no primary key field") := by
  unfold GetPrimaryKeyColumn at h
  unfold GetPrimaryKeyValue
  cases hf : s.fields.find? (fun f => f.pkTag == "true") with
  | none => rfl
  | some f => rw [hf] at h; exact absurd h (by simp)

/-- With no primary key and nonempty column names, the empty-string pk
marker filters out nothing: the insert columns and values are the full
field lists. -/
theorem specInsert_nopk (s : GoStruct) (h : ∀ c ∈ (GetFieldInfo s).1, c ≠ "") :
    specInsertColumns s "" = (GetFieldInfo s).1 ∧
    specInsertValues s "" = (GetFieldInfo s).2 := by
  have hz : ((GetFieldInfo s).1.zip (GetFieldInfo s).2)
      = s.fields.map (fun f => (goToLower f.name, f.value)) := by
    unfold GetFieldInfo
    exact List.zip_map' _ _ _
  have hfilter : (((GetFieldInfo s).1.zip (GetFieldInfo s).2).filter (fun cv => cv.1 ≠ ""))
      = (GetFieldInfo s).1.zip (GetFieldInfo s).2 := by
    rw [List.filter_eq_self]
    intro a ha
    have h1 : a.1 ∈ (GetFieldInfo s).1 := by
      rw [hz] at ha
      obtain ⟨f, hf, rfl⟩ := List.mem_map.mp ha
      unfold GetFieldInfo
      exact List.mem_map_of_mem _ hf
    simpa using h a.1 h1
  constructor
  · unfold specInsertColumns
    rw [hfilter, hz]
    unfold GetFieldInfo
    simp [List.map_map]
  · unfold specInsertValues
    rw [hfilter, hz]
    unfold GetFieldInfo
    simp [List.map_map]

/-- Claim C10: for a model with no primary-key field (and nonempty column
names, as Go field names are nonempty identifiers), Save does not fail with
a no-primary-key error: it performs the Insert, and that Insert excludes no
column — the statement is built over every field of the model. -/
theorem c10_save_no_pk_inserts_all (ds : Datastore) (s : GoStruct) (e : GoError)
    (hno : GetPrimaryKeyColumn s = .error e)
    (hnames : ∀ c ∈ (GetFieldInfo s).1, c ≠ "") :
    Save ds s = Insert ds s ∧
    Insert ds s = insertExec ds
      ("INSERT INTO " ++ goToLower s.typeName ++ " (" ++
        String.intercalate ", " (GetFieldInfo s).1 ++ ") VALUES (" ++
        String.intercalate ", "
          ((List.range (GetFieldInfo s).1.length).map (fun i => GetPlaceholder ds.adapter (i + 1)))
        ++ ")")
      (GetFieldInfo s).2 "" := by
  have hv := pkValue_error_of_pkColumn_error s e hno
  constructor
  · unfold Save
    rw [hv]
  · rw [insert_nopk_form ds s e hno]
    obtain ⟨hc, hvv⟩ := specInsert_nopk s hnames
    unfold specInsertQuery
    rw [hc, hvv]

/-- A model with no pk-tagged field. -/
def sNoPk : GoStruct :=
  { typeName := "Log"
    fields :=
      [ { name := "Msg", typeName := "string", value := .str "x", dbTag := "", pkTag := "" }
      , { name := "Level", typeName := "int", value := .int 2, dbTag := "", pkTag := "" } ] }

/-- Witness for C10 on a two-field model without a primary key. -/
theorem c10_save_no_pk_inserts_all_witness :
    Save dsLite sNoPk = Insert dsLite sNoPk ∧
    Insert dsLite sNoPk = insertExec dsLite
      ("INSERT INTO " ++ goToLower sNoPk.typeName ++ " (" ++
        String.intercalate ", " (GetFieldInfo sNoPk).1 ++ ") VALUES (" ++
        String.intercalate ", "
          ((List.range (GetFieldInfo sNoPk).1.length).map (fun i => GetPlaceholder dsLite.adapter (i + 1)))
        ++ ")")
      (GetFieldInfo sNoPk).2 "" :=
  c10_save_no_pk_inserts_all dsLite sNoPk
    (.mk "model has no primary key field (tag: `pk:\x22true\x22`)") rfl (by decide)

/-- A model whose primary key is a string currently holding its zero
value "" — the case on which claim C1 fails. -/
def sItem : GoStruct :=
  { typeName := "Item"
    fields :=
      [ { name := "Key", typeName := "string", value := .str "", dbTag := "", pkTag := "true" }
      , { name := "Name", typeName := "string", value := .str "Bob", dbTag := "", pkTag := "" } ] }

/-- An engine whose exec result records the executed query, so that the
INSERT and UPDATE paths yield observably different results. -/
def probeEngine : Engine :=
  { exec := fun q _ => .ok { lastInsertId := .error (.mk q), rowsAffected := .ok 0 }
    queryRow := fun _ _ => .noRows
    queryRowScanInt := fun _ _ => .ok 1 }

/-- A SQLite datastore over the probing engine. -/
def dsProbe : Datastore := { adapter := .sqlite, engine := probeEngine }

/-- Counterexample for claim C1: the model sItem has a primary-key field
whose value is the zero value of its type (the empty string), yet Save
performs an Update, not an Insert — the zero-value check of Save only
fires for reflect kinds Int and Int64. -/
theorem c1_counterexample :
    GetPrimaryKeyValue sItem = .ok (GoValue.str "") ∧
    specIsZeroValue (GoValue.str "") = true ∧
    Save dsProbe sItem = Update dsProbe sItem ∧
    Save dsProbe sItem ≠ Insert dsProbe sItem := by
  refine ⟨rfl, rfl, rfl, ?_⟩
  decide

/-- Claim C1 amended: Save reads the primary-key value and performs an
Insert exactly when that value is an int or int64 equal to 0 (and also when
the primary-key lookup fails); every other primary-key value — including
zero values of other types such as the empty string or int32 0 — leads to
an Update. -/
theorem c1_save_branching (ds : Datastore) (s : GoStruct) (pkv : GoValue)
    (h : GetPrimaryKeyValue s = .ok pkv) :
    ((pkv = GoValue.int 0 ∨ pkv = GoValue.int64 0) → Save ds s = Insert ds s) ∧
    (¬(pkv = GoValue.int 0 ∨ pkv = GoValue.int64 0) → Save ds s = Update ds s) := by
  constructor
  · rintro (h0 | h0) <;> subst h0 <;> simp [Save, h]
  · intro hne
    cases pkv with
    | int n =>
      have hn : n ≠ 0 := fun h0 => hne (Or.inl (by rw [h0]))
      simp [Save, h, hn]
    | int64 n =>
      have hn : n ≠ 0 := fun h0 => hne (Or.inr (by rw [h0]))
      simp [Save, h, hn]
    | int32 n => simp [Save, h]
    | int16 n => simp [Save, h]
    | int8 n => simp [Save, h]
    | str v => simp [Save, h]
    | bool b => simp [Save, h]
    | other k => simp [Save, h]

/-- Witness for the amended C1: the sample User model with integer key 0 is
inserted. -/
theorem c1_save_branching_witness :
    Save dsLite sUser = Insert dsLite sUser :=
  (c1_save_branching dsLite sUser (GoValue.int 0) rfl).1 (Or.inl rfl)

/-- Claim C8: for a valid model pointer with a primary-key column, when the
query matches zero rows FindByID returns the underlying no-rows error
(sql.ErrNoRows, propagated unwrapped) and the destination model is returned
unmodified — in particular a zero-valued destination keeps every field at
its zero value. -/
theorem c8_findByID_no_rows (ds : Datastore) (s : GoStruct) (id : Int) (pkCol : String)
    (hpk : GetPrimaryKeyColumn s = .ok pkCol)
    (hcols : (GetFieldInfo s).1 ≠ [])
    (hq : ds.engine.queryRow
      ("SELECT " ++ String.intercalate ", " (GetFieldInfo s).1 ++ " FROM " ++
        goToLower s.typeName ++ " WHERE " ++ pkCol ++ " = " ++ GetPlaceholder ds.adapter 1)
      [GoValue.int id] = RowOutcome.noRows) :
    FindByID ds (GoModel.ptrStruct false s) id =
      (some GoError.errNoRows, GoModel.ptrStruct false s) := by
  have hne : (GetFieldInfo s).1.isEmpty = false := by
    cases hc : (GetFieldInfo s).1 with
    | nil => exact absurd hc hcols
    | cons a l => rfl
  unfold FindByID
  simp only [hne, hpk, hq, Bool.false_eq_true, if_false]

/-- Witness for C8: the User model against an engine reporting no rows. -/
theorem c8_findByID_no_rows_witness :
    FindByID dsLite (GoModel.ptrStruct false sUser) 7 =
      (some GoError.errNoRows, GoModel.ptrStruct false sUser) :=
  c8_findByID_no_rows dsLite sUser 7 "id" rfl (by decide) rfl

end Liteforge
